import Mathlib

/-!
Verification development for `svg2geojson` (src/lib/svg2geojson.js).

Shallow embedding conventions:
* JavaScript numbers are modelled as rationals (`ℚ`).  `NaN` is not
  representable in `ℚ`; the numeric value of a non-numeric token is
  modelled as `0` (no theorem below depends on the numeric value of a
  non-numeric token).
* JavaScript exceptions (`TypeError`) and `process.exit` calls are
  modelled by an `Except Err` result: an `Err` value means the whole
  conversion aborts with no output.
* The in-place mutation `mat23.multiply(xform, xform, mat)` performed by
  `combineTransform` (line 284 of the source) writes the product into the
  very object the caller's `xform` variable points at.  The traversal is
  therefore embedded with explicit state passing: every traversal
  function returns, next to its geometries, the value held by the
  caller's (aliased) transform object after the call.
-/

/-- A 2-D point, the value of one `[x, y]` coordinate array. -/
abbrev Pt : Type := ℚ × ℚ

/-- An affine 2×3 matrix with entries `a b c d e f`, the layout shared by
vmath's `mat23` (fields `m00 m01 m02 m03 m04 m05`) and the SVG
`matrix(a,b,c,d,e,f)` attribute form: the linear part is
`[[a, c], [b, d]]` and `(e, f)` is the translation. -/
structure Mat23 where
  a : ℚ
  b : ℚ
  c : ℚ
  d : ℚ
  e : ℚ
  f : ℚ
deriving DecidableEq, Repr

/-- Modelled from the spec: standard affine evaluation of a 2×3 matrix at
a point, the behaviour of vmath's `vec2.transformMat23(out, p, m)`:
`x' = a*x + c*y + e`, `y' = b*x + d*y + f`. -/
def Mat23.transformMat23 (m : Mat23) (p : Pt) : Pt :=
  (m.a * p.1 + m.c * p.2 + m.e, m.b * p.1 + m.d * p.2 + m.f)

/-- Modelled from the spec: the affine matrix product computed by vmath's
`mat23.multiply(out, a, b)` (the spec's "transform-of-transform = matrix
product", §3).  `out = a ⬝ b` in the column-vector convention used by
`transformMat23`. -/
def Mat23.mul (x y : Mat23) : Mat23 where
  a := x.a * y.a + x.c * y.b
  b := x.b * y.a + x.d * y.b
  c := x.a * y.c + x.c * y.d
  d := x.b * y.c + x.d * y.d
  e := x.a * y.e + x.c * y.f + x.e
  f := x.b * y.e + x.d * y.f + x.f

/-- Modelled from the spec: `applyToPoint` of transformation-matrix-js,
the standard affine evaluation (`{x: x*a + y*c + e, y: x*b + y*d + f}`).
It is the same formula as `Mat23.transformMat23`; the two names mirror
the two external libraries the source calls. -/
def Mat23.applyToPoint (m : Mat23) (p : Pt) : Pt :=
  (p.1 * m.a + p.2 * m.c + m.e, p.1 * m.b + p.2 * m.d + m.f)

/-- A `transform` attribute value after the source's regex step
(`/matrix\((.+?)\)/` at line 279): `matrixForm` carries the six parsed
numbers of a `matrix(a,b,c,d,e,f)` value, `otherForm` stands for any
transform string the regex does not match (which the source ignores). -/
inductive TransformAttr where
  | matrixForm (a b c d e f : ℚ)
  | otherForm
deriving DecidableEq, Repr

/-- Embedding of `combineTransform` (source lines 276-288), value level:
with a `matrix(...)` transform the source builds `mat` and returns
`xform ? mat23.multiply(xform, xform, mat) : mat`; otherwise it returns
`xform` unchanged.  (The in-place write into `xform` performed by
`multiply` is accounted for separately in the traversal embedding.) -/
def combineTransform (t : Option TransformAttr) (xform : Option Mat23) : Option Mat23 :=
  match t with
  | some (.matrixForm a b c d e f) =>
      let mat : Mat23 := ⟨a, b, c, d, e, f⟩
      match xform with
      | some x => some (x.mul mat)
      | none => some mat
  | _ => xform

/-- One term of the winding accumulation at source line 263:
`(pts[i][0] - p0[0]) * (pts[i][1] + p0[1])`. -/
def shoelaceTerm (p prev : Pt) : ℚ :=
  (p.1 - prev.1) * (p.2 + prev.2)

/-- Terms of the loop in `windingIsCorrect` for indices `i ≥ 1`, where
`p0 = pts[i-1]`: each point is paired with its predecessor. -/
def windingSumFrom (prev : Pt) : List Pt → ℚ
  | [] => 0
  | p :: ps => shoelaceTerm p prev + windingSumFrom p ps

/-- The full accumulation of `windingIsCorrect` (source lines 260-264):
the `i = 0` iteration pairs `pts[0]` with `pts[pts.length - 1]` (the
`(i || pts.length) - 1` index), the remaining iterations pair each point
with its predecessor. -/
def windingSum : List Pt → ℚ
  | [] => 0
  | p :: ps => shoelaceTerm p (List.getLastD ps p) + windingSumFrom p ps

/-- Embedding of `windingIsCorrect` (source lines 259-266).  The second
argument is the number the call site passes (`i`, or the literal `0`);
the source tests its JavaScript truthiness, i.e. `≠ 0`. -/
def windingIsCorrect (pts : List Pt) (shouldBeClockwise : Nat) : Bool :=
  let sum := windingSum pts
  if shouldBeClockwise ≠ 0 then decide (sum < 0) else decide (0 < sum)

/-- One step of the winding pass of `addPathData` (source lines 250-252):
ring `i` is reversed when `windingIsCorrect(coordinates[i], i)` fails. -/
def normalizeRing (i : Nat) (r : List Pt) : List Pt :=
  if windingIsCorrect r i then r else r.reverse

/-- The whole winding pass of `addPathData`: every ring is normalized at
its own index (the source loop runs the indices downwards, which is
element-wise equivalent). -/
def windingPassFrom (i : Nat) : List (List Pt) → List (List Pt)
  | [] => []
  | r :: rs => normalizeRing i r :: windingPassFrom (i + 1) rs

/-- Sum of `shoelaceTerm` over the consecutive pairs of a list
(no wrap-around edge). -/
def chainSum : List Pt → ℚ
  | p :: q :: rest => shoelaceTerm q p + chainSum (q :: rest)
  | _ => 0

/-! ### JavaScript string and attribute coercions

`addPolygonToLayer` / `addPolylineToLayer` (source lines 203-234) split
the raw `points` attribute with `/[\s,]+/` and coerce tokens with `* 1`;
`attrs` (lines 268-274) coerces a whole attribute value with `* 1`,
keeping the raw string when the coercion yields `NaN`.  The separators
and numeric strings exercised here use the space, tab, newline, carriage
return and comma characters; exponent, hexadecimal and infinity literal
forms of JavaScript numbers are not modelled (no claim touches them, and
no input below uses them).  A `NaN` produced for a kept non-empty token
is not representable in `ℚ`; its numeric value is modelled as `0` (no
theorem below depends on the numeric value of such a token). -/

/-- Characters matched by the separator class `[\s,]` as used on the
`points` attributes. -/
def isSepChar (c : Char) : Bool :=
  c == ' ' || c == ',' || c == '\t' || c == '\n' || c == '\r'

/-- JavaScript whitespace trimmed by `Number(...)` coercion. -/
def isWsChar (c : Char) : Bool :=
  c == ' ' || c == '\t' || c == '\n' || c == '\r'

mutual

/-- Accumulating state of `String.prototype.split(/[\s,]+/)`: reading
characters of a token (`acc` holds the token so far, reversed). -/
def splitSepsAux : List Char → List Char → List String
  | [], acc => [acc.reverse.asString]
  | ch :: rest, acc =>
      if isSepChar ch then acc.reverse.asString :: splitSepsSkip rest
      else splitSepsAux rest (ch :: acc)

/-- Skipping a (maximal) run of separators inside `split(/[\s,]+/)`; a
trailing run contributes a final empty token, as in JavaScript. -/
def splitSepsSkip : List Char → List String
  | [] => [""]
  | ch :: rest =>
      if isSepChar ch then splitSepsSkip rest
      else splitSepsAux rest [ch]

end

/-- Embedding of `s.split(/[\s,]+/)` (source lines 206 and 224): maximal
separator runs split the string; a leading or trailing run yields an
empty token. -/
def splitSeps (s : String) : List String :=
  splitSepsAux s.toList []

/-- Numeric value of a digit character. -/
def digitVal (c : Char) : Nat := c.toNat - 48

/-- Value of a string of decimal digits. -/
def natOfDigits (ds : List Char) : Nat :=
  ds.foldl (fun n c => n * 10 + digitVal c) 0

/-- Decimal literal body of a JavaScript number: digits with an optional
fractional part, at least one digit overall, nothing left over. -/
def parseDecimal (cs : List Char) : Option ℚ :=
  let ip := cs.takeWhile Char.isDigit
  let rest := cs.dropWhile Char.isDigit
  match rest with
  | [] => if ip.isEmpty then none else some (natOfDigits ip : ℚ)
  | c :: rest2 =>
      if c == '.' then
        let fp := rest2.takeWhile Char.isDigit
        let rest3 := rest2.dropWhile Char.isDigit
        if rest3.isEmpty = false then none
        else if ip.isEmpty && fp.isEmpty then none
        else some ((natOfDigits ip : ℚ) + (natOfDigits fp : ℚ) / ((10 : ℚ) ^ fp.length))
      else none

/-- Embedding of the JavaScript coercion `s * 1` (`Number(s)`) on a
string: surrounding whitespace is trimmed, the empty remainder is `0`, a
signed decimal literal is its value, anything else is `NaN`, returned
here as `none`. -/
def jsStrToNum (s : String) : Option ℚ :=
  let cs := ((s.toList.dropWhile isWsChar).reverse.dropWhile isWsChar).reverse
  match cs with
  | [] => some 0
  | c :: rest =>
      if c == '-' then (parseDecimal rest).map (fun q => -q)
      else if c == '+' then parseDecimal rest
      else parseDecimal cs

/-- A JavaScript attribute value after the coercion in `attrs` (source
lines 268-274): a number, or the raw string kept when `* 1` is `NaN`. -/
inductive JsVal where
  | num (q : ℚ)
  | str (s : String)
deriving DecidableEq, Repr

/-- Embedding of one `attrs` lookup (source line 271): a missing
attribute yields `0`; `isNaN(value * 1)` keeps the raw string, otherwise
the coerced number is stored. -/
def attrValue : Option String → JsVal
  | none => .num 0
  | some s =>
      match jsStrToNum s with
      | some q => .num q
      | none => .str s

/-- JavaScript truthiness of such a value (`0` and the empty string are
falsy; `NaN` never reaches this point because `attrValue` keeps the raw
string instead). -/
def JsVal.truthy : JsVal → Bool
  | .num q => q != 0
  | .str s => s != ""

/-- Numeric value of a kept token (`nums[i] * 1` at source lines 208 and
226); a non-numeric token is `NaN` in JavaScript, modelled as `0`. -/
def tokNum (t : String) : ℚ := (jsStrToNum t).getD 0

/-- Embedding of the pairing loop at source lines 207-208 / 225-226:
tokens are consumed two at a time and a pair is kept when both tokens
are truthy (non-empty) strings. -/
def parsePairs : List String → List Pt
  | a :: b :: rest =>
      if a != "" && b != "" then (tokNum a, tokNum b) :: parsePairs rest
      else parsePairs rest
  | _ => []

/-! ### Geometries and elements -/

/-- Fatal outcomes of a conversion: `exitNoMeta` is the `process.exit(1)`
at source line 24, `throwNotInvertible` the exception thrown by
`Matrix.fromTriangles` on a degenerate source triangle, `typeError` any
JavaScript `TypeError` raised while processing (all three abort the
conversion with no output). -/
inductive Err where
  | exitNoMeta
  | throwNotInvertible
  | typeError
deriving DecidableEq, Repr

/-- The `coordinates` payload of a produced geometry, tagged by the
GeoJSON `type` string the source assigns. -/
inductive Shape where
  | point (p : Pt)
  | lineString (ps : List Pt)
  | polygon (rings : List (List Pt))
deriving DecidableEq, Repr

/-- A geometry object as built by the `add*ToLayer` functions.  The
`debugId` field models the expando property the source attaches to the
`coordinates` array (`geo.coordinates.debugId`, line 305); rebuilding
the coordinates array discards it. -/
structure Geo where
  shape : Shape
  debugId : Option String
deriving DecidableEq, Repr

/-- Embedding of `coords` (source lines 290-302): with a transform every
point is passed through `vec2.transformMat23`, otherwise the list is
returned unchanged. -/
def coords (xform : Option Mat23) (pts : List Pt) : List Pt :=
  match xform with
  | some m => pts.map m.transformMat23
  | none => pts

/-- Decimal rendering of a rational for the debug labels.  The labels
are cosmetic (no theorem below inspects a synthesized label); integral
values print as in JavaScript, non-integral ones as `num/den`. -/
def qStr (q : ℚ) : String :=
  if q.den = 1 then toString q.num else toString q.num ++ "/" ++ toString q.den

/-- Rendering of a point array inside a template literal (`${pts[0]}`). -/
def ptStr (p : Pt) : String := qStr p.1 ++ "," ++ qStr p.2

/-- Embedding of `addDebugId` (source lines 304-306): the element's `id`
attribute prefixed with `#` when present, otherwise the synthesized
fallback description. -/
def addDebugId (id : Option String) (fallback : String) : Option String :=
  match id with
  | some i => some ("#" ++ i)
  | none => some fallback

/-- One polyline produced by the external flattener `pathDataToPolys`
(svg-path-to-polygons): its point sequence and its closed flag.  The
flattener itself is outside this repository; `addPathData` is embedded
as a function of the flattener's output. -/
structure Polyline where
  pts : List Pt
  closed : Bool
deriving DecidableEq, Repr

/-- Embedding of `addPathData` (source lines 236-256) as a function of
the flattened polylines: type selection (`Polygon` when more than one
polyline or the single polyline is closed, else `LineString`,
degenerating to `Point` at exactly one coordinate), winding pass on
polygon rings when `checkWinding` is truthy.  An empty polyline array
would make `polys[0].closed` throw a `TypeError`. -/
def addPathDataGeo (xform : Option Mat23) (polys : List Polyline) (checkWinding : Bool) :
    Except Err Geo :=
  match polys with
  | [] => .error .typeError
  | p0 :: rest =>
      let ringsCoords := (p0 :: rest).map fun pl => coords xform pl.pts
      if 1 < (p0 :: rest).length ∨ p0.closed = true then
        .ok { shape := .polygon (if checkWinding then windingPassFrom 0 ringsCoords else ringsCoords),
              debugId := none }
      else
        match coords xform p0.pts with
        | [q] => .ok { shape := .point q, debugId := none }
        | cs => .ok { shape := .lineString cs, debugId := none }

/-- Embedding of `addLineToLayer` (source lines 173-181): a two-point
`LineString` from the `x1 y1 x2 y2` attributes (numeric attribute values
modelled as rationals, missing attributes as `0`, per `attrs`). -/
def addLineGeo (id : Option String) (xform : Option Mat23) (x1 y1 x2 y2 : ℚ) : Geo :=
  { shape := .lineString (coords xform [(x1, y1), (x2, y2)]),
    debugId := addDebugId id ("line @ " ++ qStr x1 ++ "," ++ qStr y1) }

/-- Label fragment `${pts[0]},${pts[1]}` of the polygon/polyline
fallback labels; at the time `addDebugId` runs, `coords` has already
overwritten the point arrays in place, so the transformed values are
shown. -/
def firstTwoStr : List Pt → String
  | r0 :: r1 :: _ => ptStr r0 ++ "," ++ ptStr r1
  | _ => "undefined"

/-- Embedding of `addPolygonToLayer` (source lines 203-219).  A falsy
coerced `points` attribute returns without output; a truthy numeric
value crashes at `.split` (numbers have no such method); a kept string
is split and paired; an empty pair list crashes at `pts[0].concat()`;
otherwise the ring is closed by appending the first pair, transformed,
winding-checked at index `0` and reversed on failure. -/
def addPolygonGeo (id : Option String) (xform : Option Mat23) (pointsAttr : Option String) :
    Except Err (Option Geo) :=
  let c := attrValue pointsAttr
  if c.truthy = false then .ok none
  else
    match c with
    | .num _ => .error .typeError
    | .str s =>
        let nums := splitSeps s
        let pts := parsePairs nums
        match pts with
        | [] => .error .typeError
        | p :: rest =>
            let ring := coords xform ((p :: rest) ++ [p])
            let ring2 := if windingIsCorrect ring 0 then ring else ring.reverse
            .ok (some { shape := .polygon [ring2],
                        debugId := addDebugId id ("polygon @ " ++ firstTwoStr ring) })

/-- Embedding of `addPolylineToLayer` (source lines 221-234): identical
point parsing and first-point duplication, but the result stays a
`LineString` and no winding check runs. -/
def addPolylineGeo (id : Option String) (xform : Option Mat23) (pointsAttr : Option String) :
    Except Err (Option Geo) :=
  let c := attrValue pointsAttr
  if c.truthy = false then .ok none
  else
    match c with
    | .num _ => .error .typeError
    | .str s =>
        let nums := splitSeps s
        let pts := parsePairs nums
        match pts with
        | [] => .error .typeError
        | p :: rest =>
            let ls := coords xform ((p :: rest) ++ [p])
            .ok (some { shape := .lineString ls,
                        debugId := addDebugId id ("polyline @ " ++ firstTwoStr ls) })

/-- One `GeoItem` correspondence entry of the Prognoz `MetaInfo` block:
drawing-space `X`/`Y` and target `Longitude`/`Latitude` attributes
(their `parseFloat`-parsed numeric values, modelled as rationals). -/
structure GeoItem where
  x : ℚ
  y : ℚ
  longitude : ℚ
  latitude : ℚ
deriving DecidableEq, Repr

/-- A parsed drawing element, covering the kinds the settled claims
exercise.  `metaInfo` models an element whose namespace matches the
Prognoz `MetaInfo`, carrying the `GeoItem` children of its optional
`Geo` child; `passive` stands for the recognized no-ops (`style`,
`defs`, `use`); `other` for an unrecognized kind (warned about and
skipped).  `tr` is the `transform` attribute after the regex step. -/
inductive El where
  | g (id : Option String) (tr : Option TransformAttr) (children : List El)
  | line (id : Option String) (tr : Option TransformAttr) (x1 y1 x2 y2 : ℚ)
  | polygon (id : Option String) (tr : Option TransformAttr) (points : Option String)
  | polyline (id : Option String) (tr : Option TransformAttr) (points : Option String)
  | metaInfo (geo : Option (List GeoItem))
  | passive (nm : String) (tr : Option TransformAttr)
  | other (nm : String) (tr : Option TransformAttr)

/-- The `transform` attribute of an element (`el.$.transform`). -/
def elTransform : El → Option TransformAttr
  | .g _ t _ => t
  | .line _ t _ _ _ _ => t
  | .polygon _ t _ => t
  | .polyline _ t _ => t
  | .metaInfo _ => none
  | .passive _ t => t
  | .other _ t => t

/-! ### Traversal

`addElementToLayer` (source lines 111-139) first reassigns
`xform = combineTransform(el, xform)` and then dispatches on the element
kind; `addGroupToLayer` (lines 141-145) passes the very same `xform`
object to every child.  Because `combineTransform` multiplies in place
into the caller's object when both a running transform and a
`matrix(...)` attribute are present, the traversal functions below
return, next to the produced geometries, the value held by the caller's
transform object after the call (`none` stays `none`: with no running
object, a child's fresh matrix object is not shared with its parent or
siblings). -/

mutual

/-- Embedding of `addElementToLayer` for one element under the current
(aliased) running transform value. -/
def processElem (el : El) (xf : Option Mat23) : Except Err (List Geo × Option Mat23) :=
  let xf1 := combineTransform (elTransform el) xf
  match el with
  | .g _ _ children =>
      match processList children xf1 with
      | .error err => .error err
      | .ok (gs, xf2) => .ok (gs, if xf.isSome then xf2 else none)
  | .line id _ x1 y1 x2 y2 =>
      .ok ([addLineGeo id xf1 x1 y1 x2 y2], if xf.isSome then xf1 else none)
  | .polygon id _ pA =>
      match addPolygonGeo id xf1 pA with
      | .error err => .error err
      | .ok none => .ok ([], if xf.isSome then xf1 else none)
      | .ok (some geo) => .ok ([geo], if xf.isSome then xf1 else none)
  | .polyline id _ pA =>
      match addPolylineGeo id xf1 pA with
      | .error err => .error err
      | .ok none => .ok ([], if xf.isSome then xf1 else none)
      | .ok (some geo) => .ok ([geo], if xf.isSome then xf1 else none)
  | .metaInfo _ => .ok ([], if xf.isSome then xf1 else none)
  | .passive _ _ => .ok ([], if xf.isSome then xf1 else none)
  | .other _ _ => .ok ([], if xf.isSome then xf1 else none)

/-- Embedding of `addGroupToLayer`: the children are processed in order,
all observing the same running transform object, whose value is threaded
through. -/
def processList (els : List El) (xf : Option Mat23) : Except Err (List Geo × Option Mat23) :=
  match els with
  | [] => .ok ([], xf)
  | e :: rest =>
      match processElem e xf with
      | .error err => .error err
      | .ok (gs, xf2) =>
          match processList rest xf2 with
          | .error err => .error err
          | .ok (gs2, xf3) => .ok (gs ++ gs2, xf3)

end

/-! ### Calibration -/

/-- Modelled from the spec: `Matrix.fromTriangles` of
transformation-matrix-js (an external dependency), per §4.1: the unique
affine transform carrying the two source edge vectors onto the two
target edge vectors plus the translation matching the first vertex; it
throws (here `throwNotInvertible`) exactly when the source triangle is
degenerate (zero cross product of its edge vectors), since the required
matrix inverse does not exist. -/
def fromTriangles (s0 s1 s2 t0 t1 t2 : Pt) : Except Err Mat23 :=
  let u1 : Pt := (s1.1 - s0.1, s1.2 - s0.2)
  let u2 : Pt := (s2.1 - s0.1, s2.2 - s0.2)
  let v1 : Pt := (t1.1 - t0.1, t1.2 - t0.2)
  let v2 : Pt := (t2.1 - t0.1, t2.2 - t0.2)
  let det := u1.1 * u2.2 - u2.1 * u1.2
  if det = 0 then .error .throwNotInvertible
  else
    let a := (v1.1 * u2.2 - v2.1 * u1.2) / det
    let b := (v1.2 * u2.2 - v2.2 * u1.2) / det
    let c := (v2.1 * u1.1 - v1.1 * u2.1) / det
    let d := (v2.2 * u1.1 - v1.2 * u2.1) / det
    let e := t0.1 - (a * s0.1 + c * s0.2)
    let f := t0.2 - (b * s0.1 + d * s0.2)
    .ok ⟨a, b, c, d, e, f⟩

/-- Embedding of `getConvertMatrix` (source lines 69-92): the first
three `GeoItem`s give the source triangle (`X`/`Y`) and target triangle
(`Longitude`/`Latitude`, longitude first).  The caller guards the count
to exactly three; on fewer items the source would index `undefined`. -/
def getConvertMatrix (vertices : List GeoItem) : Except Err Mat23 :=
  match vertices with
  | v0 :: v1 :: v2 :: _ =>
      fromTriangles (v0.x, v0.y) (v1.x, v1.y) (v2.x, v2.y)
        (v0.longitude, v0.latitude) (v1.longitude, v1.latitude) (v2.longitude, v2.latitude)
  | _ => .error .typeError

/-- The `Geo` payload of a `metaInfo` element, used by the `find` at
source lines 19-21. -/
def elMetaGeo : El → Option (Option (List GeoItem))
  | .metaInfo g => some g
  | _ => none

/-- Embedding of the `trangleVertices` lookup (source lines 19-21,
keeping the source's spelling): the `GeoItem` children of the `Geo`
child of the first Prognoz `MetaInfo` element, or `none` when either is
missing. -/
def trangleVertices (doc : List El) : Option (List GeoItem) :=
  (doc.findSome? elMetaGeo).bind id

/-! ### Output assembly -/

/-- Pointwise application of the calibration matrix over a geometry's
coordinate structure, as `convertCoordinates` (source lines 94-102)
recurses over nested arrays. -/
def mapShape (fn : Pt → Pt) : Shape → Shape
  | .point p => .point (fn p)
  | .lineString ps => .lineString (ps.map fn)
  | .polygon rs => .polygon (rs.map fun r => r.map fn)

/-- Embedding of the reassignment
`data.coordinates = convertCoordinates(data.coordinates, convertMatrix)`
(source line 54): `convertCoordinates` builds fresh arrays with `map`,
so the `debugId` expando of the old coordinates array is not carried
over. -/
def convertCoordinatesGeo (g : Geo) (m : Mat23) : Geo :=
  { shape := mapShape m.applyToPoint g.shape, debugId := none }

/-- The `properties` map of a `Feature` in debug mode, one key `svgID`
(whose JavaScript value `undefined` is modelled as `none`). -/
structure Props where
  svgID : Option String
deriving DecidableEq, Repr

/-- One GeoJSON `Feature` as assembled at source lines 56-60 (`type` is
the constant string `Feature`). -/
structure Feature where
  properties : Option Props
  geometry : Geo
deriving DecidableEq, Repr

/-- A `FeatureCollection` (source lines 50-62); the constant `type` and
`creator` fields are omitted from the model. -/
structure FC where
  features : List Feature
deriving DecidableEq, Repr

/-- The caller-facing options object: `layers` and `debug` (both default
to a falsy value). -/
structure Options where
  layers : Bool := false
  debug : Bool := false
deriving DecidableEq, Repr

/-- The return value of `convertSVGToGeoJSON` (source line 66): the
first layer's collection by default, or the whole named-layer list when
`options.layers` is set. -/
inductive ConvResult where
  | single (fc : FC)
  | layered (ls : List (String × FC))
deriving DecidableEq, Repr

/-- Creation of `layerByName[name] = []` on first use (source lines
32-34 and 37-39); JavaScript objects preserve key insertion order, so an
ordered association list models `layerByName`. -/
def ensureLayer (st : List (String × List Geo)) (nm : String) : List (String × List Geo) :=
  if st.any (fun entry => entry.1 == nm) then st else st ++ [(nm, [])]

/-- Pushing produced geometries into `layerByName[name]`. -/
def appendLayer (st : List (String × List Geo)) (nm : String) (gs : List Geo) :
    List (String × List Geo) :=
  match st with
  | [] => []
  | (k, v) :: rest =>
      if k == nm then (k, v ++ gs) :: rest else (k, v) :: appendLayer rest nm gs

/-- Embedding of the layer-name derivation (source line 31): strip a
trailing `_1_`, then replace every underscore with a space. -/
def layerName (id : String) : String :=
  let base := if id.endsWith "_1_" then id.dropRight 3 else id
  base.map fun ch => if ch == '_' then ' ' else ch

/-- One iteration of the `svg.$$.forEach` loop (source lines 29-42):
with layer mode on, a top-level `g` feeds its own named layer (name from
its `id`, or `Layer i`), its subtree starting from its freshly combined
transform; every other case feeds the unnamed layer through
`addElementToLayer` with no running transform. -/
def convertStep (opts : Options) (st : List (String × List Geo)) (i : Nat) (el : El) :
    Except Err (List (String × List Geo)) :=
  match el, opts.layers with
  | .g id tr children, true =>
      let nm := match id with
        | some s => layerName s
        | none => "Layer " ++ toString i
      let st2 := ensureLayer st nm
      match processList children (combineTransform tr none) with
      | .error err => .error err
      | .ok (gs, _) => .ok (appendLayer st2 nm gs)
  | el2, _ =>
      let st2 := ensureLayer st ""
      match processElem el2 none with
      | .error err => .error err
      | .ok (gs, _) => .ok (appendLayer st2 "" gs)

/-- The whole `forEach` loop over the numbered top-level elements. -/
def convertLoop (opts : Options) :
    List (Nat × El) → List (String × List Geo) → Except Err (List (String × List Geo))
  | [], st => .ok st
  | (i, el) :: rest, st =>
      match convertStep opts st i el with
      | .error err => .error err
      | .ok st2 => convertLoop opts rest st2

/-- Embedding of the feature construction at source lines 53-61: the
coordinates are reassigned to the converted copy and `svgID` is then
read from the new coordinates array (in debug mode only; otherwise
`properties` is `null`). -/
def buildFeatures (debug : Bool) (m : Mat23) (gs : List Geo) : List Feature :=
  gs.map fun data =>
    let conv := convertCoordinatesGeo data m
    { properties := if debug then some { svgID := conv.debugId } else none,
      geometry := conv }

/-- Embedding of the layer assembly and result selection (source lines
44-66): layers with no geometries are skipped; with layer mode the whole
named list is returned, otherwise `layers[0].geo` — which throws a
`TypeError` when every layer was dropped. -/
def processDocument (doc : List El) (opts : Options) (m : Mat23) : Except Err ConvResult :=
  match convertLoop opts doc.enum [] with
  | .error err => .error err
  | .ok st =>
      let layers := (st.filter fun entry => !entry.2.isEmpty).map fun entry =>
        (entry.1, FC.mk (buildFeatures opts.debug m entry.2))
      if opts.layers then .ok (.layered layers)
      else
        match layers with
        | [] => .error .typeError
        | (_, fc) :: _ => .ok (.single fc)

/-- Embedding of `convertSVGToGeoJSON` (source lines 15-67): missing
metadata or a `GeoItem` count other than three exits the process (line
24); a degenerate correspondence triple propagates the
`fromTriangles` exception; otherwise the calibration matrix is derived
and the document is processed. -/
def convertSVGToGeoJSON (doc : List El) (opts : Options) : Except Err ConvResult :=
  match trangleVertices doc with
  | none => .error .exitNoMeta
  | some items =>
      if items.length ≠ 3 then .error .exitNoMeta
      else
        match getConvertMatrix items with
        | .error err => .error err
        | .ok m => processDocument doc opts m

/-! ### Claim-side definitions and concrete inputs -/

deriving instance DecidableEq for Except

/-- Winding rule of claim C1 as amended: keeping the claim's shoelace
convention (a negative sum indicates clockwise), the required
orientation is counter-clockwise (positive sum) for ring index 0 and
clockwise (negative sum) for every later ring; a ring whose sum does not
match is reversed.  Written from the amended claim's words, to be
compared with the source-derived `windingPassFrom`. -/
def claimAmendedPassFrom (i : Nat) : List (List Pt) → List (List Pt)
  | [] => []
  | r :: rs =>
      (if (if i = 0 then 0 < windingSum r else windingSum r < 0) then r else r.reverse)
        :: claimAmendedPassFrom (i + 1) rs

/-- Closed exterior ring traced (0,0) → (10,0) → (10,10) → (0,10) →
(0,0): its winding accumulation is −200, i.e. clockwise under the
claimed convention. -/
def cexRing : List Pt := [(0, 0), (10, 0), (10, 10), (0, 10), (0, 0)]

/-- Simple triangle ring with accumulation −1 (nonzero signed area). -/
def w9ring : List Pt := [(0, 0), (1, 0), (0, 1)]

/-- Correspondence items mapping (0,0), (1,0), (0,1) to themselves: a
non-degenerate triple whose calibration matrix is the identity. -/
def idItems : List GeoItem := [⟨0, 0, 0, 0⟩, ⟨1, 0, 1, 0⟩, ⟨0, 1, 0, 1⟩]

/-- Collinear correspondence items (all three source points on the line
y = x): calibration must fail on them. -/
def collItems : List GeoItem := [⟨0, 0, 0, 0⟩, ⟨1, 1, 0, 0⟩, ⟨2, 2, 5, 5⟩]

/-- A document with valid metadata, an id-carrying line element, and
nothing else. -/
def c5Doc : List El := [.metaInfo (some idItems), .line (some "foo") none 0 0 1 1]

/-- A document with valid metadata and no geometry-producing element. -/
def c10Doc : List El := [.metaInfo (some idItems)]

/-- The running transform accumulated for `c4Parent`: translation by
(5,5), from its `matrix(1,0,0,1,5,5)` attribute. -/
def c4ParentMat : Mat23 := ⟨1, 0, 0, 1, 5, 5⟩

/-- First sibling: a line with its own `matrix(2,0,0,2,0,0)` scale. -/
def c4Child1 : El := .line none (some (.matrixForm 2 0 0 2 0 0)) 0 0 1 1

/-- Second sibling: the same line with no transform of its own. -/
def c4Child2 : El := .line none none 0 0 1 1

/-- A translated group holding the two siblings. -/
def c4Parent : El := .g none (some (.matrixForm 1 0 0 1 5 5)) [c4Child1, c4Child2]

/-! ### General lemmas about the winding accumulation -/

theorem windingSumFrom_eq_chainSum (prev : Pt) (l : List Pt) :
    windingSumFrom prev l = chainSum (prev :: l) := by
  induction l generalizing prev with
  | nil => simp [windingSumFrom, chainSum]
  | cons p ps ih => simp [windingSumFrom, chainSum, ih]

theorem shoelaceTerm_swap (p q : Pt) : shoelaceTerm p q = -shoelaceTerm q p := by
  simp [shoelaceTerm]; ring

theorem chainSum_concat (p : Pt) (ps : List Pt) (x : Pt) :
    chainSum ((p :: ps) ++ [x]) = chainSum (p :: ps) + shoelaceTerm x (List.getLastD ps p) := by
  induction ps generalizing p with
  | nil => simp [chainSum]
  | cons q rest ih =>
      have h := ih q
      simp only [List.cons_append, List.getLastD_cons] at *
      simp [chainSum, h]
      ring

theorem getLast?_cons_eq_getLastD (p : Pt) (ps : List Pt) :
    (p :: ps).getLast? = some (List.getLastD ps p) := by
  simp [List.getLast?_cons]

theorem chainSum_reverse (l : List Pt) : chainSum l.reverse = -chainSum l := by
  induction l with
  | nil => simp [chainSum]
  | cons p ps ih =>
      cases ps with
      | nil => simp [chainSum]
      | cons q rest =>
          rw [List.reverse_cons]
          cases hqr : (q :: rest).reverse with
          | nil => simp at hqr
          | cons z zs =>
              rw [chainSum_concat z zs p]
              have h1 : chainSum (z :: zs) = -chainSum (q :: rest) := hqr ▸ ih
              have h2 : List.getLastD zs z = q := by
                have h3 : (z :: zs).getLast? = some q := by
                  rw [← hqr, List.getLast?_reverse]; rfl
                rw [getLast?_cons_eq_getLastD] at h3
                exact Option.some.inj h3
              have h4 : chainSum (p :: q :: rest) = shoelaceTerm q p + chainSum (q :: rest) := rfl
              rw [h1, h2, h4, shoelaceTerm_swap p q]
              ring

theorem windingSum_eq_chainSum_cyc (p : Pt) (ps : List Pt) :
    windingSum (p :: ps) = chainSum ((p :: ps) ++ [p]) := by
  rw [chainSum_concat p ps p]
  simp [windingSum, windingSumFrom_eq_chainSum]
  ring

theorem windingSum_reverse (l : List Pt) : windingSum l.reverse = -windingSum l := by
  cases l with
  | nil => simp [windingSum]
  | cons p ps =>
      cases hrev : (p :: ps).reverse with
      | nil => simp at hrev
      | cons z zs =>
          have hz : z = List.getLastD ps p := by
            have h1 : (p :: ps).reverse.head? = some z := by rw [hrev]; rfl
            rw [List.head?_reverse, getLast?_cons_eq_getLastD] at h1
            exact (Option.some.inj h1).symm
          rw [windingSum_eq_chainSum_cyc z zs]
          have hcat : (z :: zs) ++ [z] = (z :: p :: ps).reverse := by
            rw [List.reverse_cons, hrev]
          rw [hcat, chainSum_reverse, windingSum_eq_chainSum_cyc p ps,
            chainSum_concat p ps p]
          have h5 : chainSum (z :: p :: ps) = shoelaceTerm p z + chainSum (p :: ps) := rfl
          rw [h5, hz]
          ring

theorem windingPassFrom_eq_claimAmended (i : Nat) (rs : List (List Pt)) :
    windingPassFrom i rs = claimAmendedPassFrom i rs := by
  induction rs generalizing i with
  | nil => rfl
  | cons r rest ih =>
      have hr : normalizeRing i r =
          if (if i = 0 then 0 < windingSum r else windingSum r < 0) then r else r.reverse := by
        by_cases hi : i = 0
        · subst hi
          simp [normalizeRing, windingIsCorrect]
        · simp [normalizeRing, windingIsCorrect, hi]
      simp [windingPassFrom, claimAmendedPassFrom, ih, hr]

theorem windingPassFrom_length (i : Nat) (rs : List (List Pt)) :
    (windingPassFrom i rs).length = rs.length := by
  induction rs generalizing i with
  | nil => rfl
  | cons r rest ih => simp [windingPassFrom, ih]

/-! ### Claims -/

/-- C3: the running transform carried into a child element composes as
parent-after-child: `combineTransform` of a `matrix(a,b,c,d,e,f)`
attribute under an accumulated transform `x` yields the product
`x ⬝ mat`, and applying that product to any point equals applying the
child's local matrix first and the parent's accumulated transform
second. -/
theorem c3_compose_order (x : Mat23) (a b c d e f : ℚ) (p : Pt) :
    combineTransform (some (.matrixForm a b c d e f)) (some x) =
      some (x.mul ⟨a, b, c, d, e, f⟩) ∧
    (x.mul ⟨a, b, c, d, e, f⟩).transformMat23 p =
      x.transformMat23 ((Mat23.mk a b c d e f).transformMat23 p) := by
  refine ⟨rfl, ?_⟩
  obtain ⟨px, py⟩ := p
  simp only [Mat23.mul, Mat23.transformMat23, Prod.mk.injEq]
  constructor <;> ring

/-- C9: winding normalization is idempotent on every ring with nonzero
accumulation: after one pass the ring satisfies the winding check for
its ring index, so a second pass reverses nothing and returns the ring
unchanged. -/
theorem c9_winding_idempotent (r : List Pt) (i : Nat) (h : windingSum r ≠ 0) :
    windingIsCorrect (normalizeRing i r) i = true ∧
      normalizeRing i (normalizeRing i r) = normalizeRing i r := by
  by_cases hc : windingIsCorrect r i = true
  · constructor
    · simp [normalizeRing, hc]
    · simp [normalizeRing, hc]
  · have hb : windingIsCorrect r i = false := eq_false_of_ne_true hc
    have hrev : windingIsCorrect r.reverse i = true := by
      unfold windingIsCorrect at hb ⊢
      rw [windingSum_reverse]
      by_cases hi : i = 0
      · subst hi
        rw [if_neg (by simp)] at hb
        rw [if_neg (by simp)]
        have h1 : ¬ (0 < windingSum r) := of_decide_eq_false hb
        have h2 : windingSum r < 0 := lt_of_le_of_ne (le_of_not_lt h1) h
        simpa using h2
      · rw [if_pos hi] at hb
        rw [if_pos hi]
        have h1 : ¬ (windingSum r < 0) := of_decide_eq_false hb
        have h2 : 0 < windingSum r := lt_of_le_of_ne (le_of_not_lt h1) (Ne.symm h)
        simpa using h2
    constructor
    · simpa [normalizeRing, hb] using hrev
    · simp [normalizeRing, hb, hrev]

/-- Witness for C9: the triangle ring `w9ring` has accumulation −1, and
one normalization pass at ring index 0 is a fixed point of a second. -/
theorem c9_winding_idempotent_witness :
    windingSum w9ring ≠ 0 ∧
      (windingIsCorrect (normalizeRing 0 w9ring) 0 = true ∧
        normalizeRing 0 (normalizeRing 0 w9ring) = normalizeRing 0 w9ring) := by
  have h : windingSum w9ring ≠ 0 := by
    norm_num [w9ring, windingSum, windingSumFrom, shoelaceTerm, List.getLastD]
  exact ⟨h, c9_winding_idempotent w9ring 0 h⟩

/-- C1 counterexample: the closed exterior ring `cexRing` has a negative
accumulation — clockwise under the claim's stated convention, hence (per
the claim) already matching the required orientation at ring index 0 —
yet `addPathData` reverses it. -/
theorem c1_counterexample :
    windingSum cexRing < 0 ∧ cexRing.reverse ≠ cexRing ∧
      addPathDataGeo none [⟨cexRing, true⟩] true =
        .ok { shape := .polygon [cexRing.reverse], debugId := none } := by
  refine ⟨?_, ?_, ?_⟩
  · norm_num [cexRing, windingSum, windingSumFrom, shoelaceTerm, List.getLastD]
  · norm_num [cexRing]
  · norm_num [addPathDataGeo, cexRing, coords, windingPassFrom, normalizeRing, windingIsCorrect,
      windingSum, windingSumFrom, shoelaceTerm, List.getLastD]

/-- C1 (amended): for a Polygon produced from a path, ring `i` is
reversed exactly when it fails the amended orientation rule — a positive
accumulation is required at ring index 0 and a negative one at every
later index, the opposite assignment to the claim as written (under the
claim's convention that a negative sum indicates clockwise: exterior
counter-clockwise, holes clockwise); the polygon primitive applies the
same index-0 rule to its single closed ring. -/
theorem c1_winding_rule_amended :
    (∀ (xform : Option Mat23) (p0 : Polyline) (rest : List Polyline),
        1 < (p0 :: rest).length ∨ p0.closed = true →
        addPathDataGeo xform (p0 :: rest) true =
          .ok { shape := .polygon
                  (claimAmendedPassFrom 0 ((p0 :: rest).map fun pl => coords xform pl.pts)),
                debugId := none }) ∧
    (∀ (id : Option String) (s : String) (xf : Option Mat23) (q : Pt) (qs : List Pt),
        jsStrToNum s = none → parsePairs (splitSeps s) = q :: qs →
        addPolygonGeo id xf (some s) =
          .ok (some { shape := .polygon (claimAmendedPassFrom 0 [coords xf ((q :: qs) ++ [q])]),
                      debugId := addDebugId id
                        ("polygon @ " ++ firstTwoStr (coords xf ((q :: qs) ++ [q]))) })) := by
  constructor
  · intro xform p0 rest h
    simp only [addPathDataGeo]
    rw [if_pos h]
    simp [windingPassFrom_eq_claimAmended]
  · intro id s xf q qs hJ hp
    have hs : s ≠ "" := by
      intro he
      rw [he] at hJ
      simp [jsStrToNum] at hJ
    have hA : attrValue (some s) = .str s := by simp [attrValue, hJ]
    simp only [addPolygonGeo, hA, JsVal.truthy, hp]
    simp [hs, claimAmendedPassFrom, windingIsCorrect]

/-- Witness for C1 (amended): a single-ring closed path polygon and a
concrete polygon element, both normalized per the amended rule. -/
theorem c1_winding_rule_amended_witness :
    addPathDataGeo none [⟨[(0, 0), (0, 4), (4, 4), (0, 0)], true⟩] true =
      .ok { shape := .polygon (claimAmendedPassFrom 0 [[(0, 0), (0, 4), (4, 4), (0, 0)]]),
            debugId := none } ∧
    addPolygonGeo none none (some "0,0 4,0 4,4") =
      .ok (some { shape := .polygon
                    (claimAmendedPassFrom 0 [coords none (([(0, 0), (4, 0), (4, 4)] : List Pt) ++ [(0, 0)])]),
                  debugId := addDebugId none
                    ("polygon @ " ++ firstTwoStr (coords none (([(0, 0), (4, 0), (4, 4)] : List Pt) ++ [(0, 0)]))) }) := by
  constructor
  · have h := c1_winding_rule_amended.1 none ⟨[(0, 0), (0, 4), (4, 4), (0, 0)], true⟩ [] (Or.inr rfl)
    simpa [coords] using h
  · exact c1_winding_rule_amended.2 none "0,0 4,0 4,4" none (0, 0) [(4, 0), (4, 4)]
      (by decide) (by decide)

/-- C6: geometry-type dispatch for path data: several polylines, or a
closed single polyline, yield a Polygon with one ring per polyline; a
single open polyline yields a LineString, degenerating to a Point when
it would have exactly one coordinate; and no emitted LineString ever has
exactly one coordinate. -/
theorem c6_path_geometry_type :
    (∀ (xform : Option Mat23) (p0 : Polyline) (rest : List Polyline),
        1 < (p0 :: rest).length ∨ p0.closed = true →
        ∃ rings, addPathDataGeo xform (p0 :: rest) true =
            .ok { shape := .polygon rings, debugId := none } ∧
          rings.length = (p0 :: rest).length) ∧
    (∀ (xform : Option Mat23) (p0 : Polyline),
        p0.closed = false → (coords xform p0.pts).length ≠ 1 →
        addPathDataGeo xform [p0] true =
          .ok { shape := .lineString (coords xform p0.pts), debugId := none }) ∧
    (∀ (xform : Option Mat23) (p0 : Polyline) (q : Pt),
        p0.closed = false → coords xform p0.pts = [q] →
        addPathDataGeo xform [p0] true = .ok { shape := .point q, debugId := none }) ∧
    (∀ (xform : Option Mat23) (polys : List Polyline) (cw : Bool) (g : Geo) (l : List Pt),
        addPathDataGeo xform polys cw = .ok g → g.shape = .lineString l → l.length ≠ 1) := by
  refine ⟨?_, ?_, ?_, ?_⟩
  · intro xform p0 rest h
    refine ⟨windingPassFrom 0 ((p0 :: rest).map fun pl => coords xform pl.pts), ?_, ?_⟩
    · simp only [addPathDataGeo]
      rw [if_pos h]
      simp
    · rw [windingPassFrom_length]
      simp
  · intro xform p0 hclosed hlen
    have hcond : ¬ (1 < ([p0] : List Polyline).length ∨ p0.closed = true) := by
      simp [hclosed]
    simp only [addPathDataGeo]
    rw [if_neg hcond]
    rcases hc : coords xform p0.pts with _ | ⟨a, _ | ⟨b, t⟩⟩
    · rfl
    · exact absurd (by rw [hc]; simp) hlen
    · rfl
  · intro xform p0 q hclosed hc
    have hcond : ¬ (1 < ([p0] : List Polyline).length ∨ p0.closed = true) := by
      simp [hclosed]
    simp only [addPathDataGeo]
    rw [if_neg hcond, hc]
  · intro xform polys cw g l hok hshape
    rcases polys with _ | ⟨p0, rest⟩
    · simp [addPathDataGeo] at hok
    · by_cases hcond : 1 < (p0 :: rest).length ∨ p0.closed = true
      · simp only [addPathDataGeo] at hok
        rw [if_pos hcond] at hok
        cases hok
        simp at hshape
      · simp only [addPathDataGeo] at hok
        rw [if_neg hcond] at hok
        rcases hc : coords xform p0.pts with _ | ⟨a, _ | ⟨b, t⟩⟩ <;> rw [hc] at hok <;> cases hok
        · cases hshape
          simp
        · simp at hshape
        · cases hshape
          simp

/-- Witness for C6: a one-point open polyline flattens to a Point. -/
theorem c6_path_geometry_type_witness :
    addPathDataGeo none [⟨[(1, 2)], false⟩] true =
      .ok { shape := .point (1, 2), debugId := none } :=
  c6_path_geometry_type.2.2.1 none ⟨[(1, 2)], false⟩ (1, 2) rfl rfl

/-- C7: a polyline element with at least one parsed coordinate pair
yields a LineString (never forced closed into a Polygon) whose
coordinate list is the parsed pairs followed by a duplicate of the
first pair appended at the end, all in input order (each coordinate
passed through the accumulated transform). -/
theorem c7_polyline_shape (id : Option String) (s : String) (xform : Option Mat23)
    (q : Pt) (qs : List Pt)
    (hJ : jsStrToNum s = none)
    (hp : parsePairs (splitSeps s) = q :: qs) :
    addPolylineGeo id xform (some s) =
      .ok (some { shape := .lineString (coords xform ((q :: qs) ++ [q])),
                  debugId := addDebugId id
                    ("polyline @ " ++ firstTwoStr (coords xform ((q :: qs) ++ [q]))) }) := by
  have hs : s ≠ "" := by
    intro he
    rw [he] at hJ
    simp [jsStrToNum] at hJ
  have hA : attrValue (some s) = .str s := by simp [attrValue, hJ]
  simp only [addPolylineGeo, hA, JsVal.truthy, hp]
  simp [hs]

/-- Witness for C7 at the points value `"1,2 3,4"`. -/
theorem c7_polyline_shape_witness :
    addPolylineGeo none none (some "1,2 3,4") =
      .ok (some { shape := .lineString (coords none (([(1, 2), (3, 4)] : List Pt) ++ [(1, 2)])),
                  debugId := addDebugId none
                    ("polyline @ " ++
                      firstTwoStr (coords none (([(1, 2), (3, 4)] : List Pt) ++ [(1, 2)]))) }) :=
  c7_polyline_shape none "1,2 3,4" none (1, 2) [(3, 4)] (by decide) (by decide)

/-- C8 counterexample: the polygon `points` value `"abc"` parses to zero
coordinate pairs, yet the converter does not skip the element — it
aborts with a `TypeError` (`pts[0].concat()` on an empty array) instead
of continuing without output. -/
theorem c8_counterexample :
    parsePairs (splitSeps "abc") = [] ∧
      addPolygonGeo none none (some "abc") = .error .typeError := by
  exact ⟨by decide, by decide⟩

/-- C8 (amended): a polygon element is skipped — no geometry, no error,
traversal continues — exactly when its coerced `points` attribute is
falsy (absent, empty, whitespace-only, or numeric zero); when a kept
truthy string parses to zero coordinate pairs, the conversion instead
aborts with a `TypeError`. -/
theorem c8_polygon_skip_amended :
    (∀ (id : Option String) (xform : Option Mat23) (pA : Option String),
        (attrValue pA).truthy = false → addPolygonGeo id xform pA = .ok none) ∧
    (∀ (id pA : Option String) (rest : List El) (xf : Option Mat23),
        (attrValue pA).truthy = false →
        processList (.polygon id none pA :: rest) xf = processList rest xf) ∧
    (∀ (id : Option String) (xform : Option Mat23) (s : String),
        jsStrToNum s = none → s ≠ "" → parsePairs (splitSeps s) = [] →
        addPolygonGeo id xform (some s) = .error .typeError) := by
  refine ⟨?_, ?_, ?_⟩
  · intro id xform pA h
    simp only [addPolygonGeo]
    rw [if_pos h]
  · intro id pA rest xf h
    have hskip : addPolygonGeo id xf pA = .ok none := by
      simp only [addPolygonGeo]
      rw [if_pos h]
    have h1 : processElem (.polygon id none pA) xf = .ok ([], xf) := by
      simp only [processElem, elTransform, combineTransform, hskip]
      cases xf <;> simp
    simp only [processList, h1]
    cases hres : processList rest xf with
    | error e => simp [hres]
    | ok pr => cases pr with | mk gs2 xf3 => simp [hres]
  · intro id xform s hJ hs hp
    have hA : attrValue (some s) = .str s := by simp [attrValue, hJ]
    simp only [addPolygonGeo, hA, JsVal.truthy, hp]
    simp [hs]

/-- Witness for C8 (amended): a missing attribute is skipped; the value
`","` (zero pairs, kept as a truthy string) aborts. -/
theorem c8_polygon_skip_amended_witness :
    addPolygonGeo none none none = .ok none ∧
      addPolygonGeo none none (some ",") = .error .typeError :=
  ⟨c8_polygon_skip_amended.1 none none none (by decide),
   c8_polygon_skip_amended.2.2 none none "," (by decide) (by decide) (by decide)⟩

/-- C2: the conversion aborts with a fatal error — producing no output —
whenever the correspondence metadata is missing or does not contain
exactly three `GeoItem` entries, and whenever the three source points
are collinear (the calibration determinant vanishes); otherwise the
calibration matrix is derived and the conversion proceeds into geometry
processing. -/
theorem c2_calibration_gate :
    (∀ (doc : List El) (opts : Options),
        trangleVertices doc = none → convertSVGToGeoJSON doc opts = .error .exitNoMeta) ∧
    (∀ (doc : List El) (opts : Options) (items : List GeoItem),
        trangleVertices doc = some items → items.length ≠ 3 →
        convertSVGToGeoJSON doc opts = .error .exitNoMeta) ∧
    (∀ (v0 v1 v2 : GeoItem) (vs : List GeoItem),
        getConvertMatrix (v0 :: v1 :: v2 :: vs) = .error .throwNotInvertible ↔
          (v1.x - v0.x) * (v2.y - v0.y) - (v2.x - v0.x) * (v1.y - v0.y) = 0) ∧
    (∀ (doc : List El) (opts : Options) (items : List GeoItem),
        trangleVertices doc = some items → items.length = 3 →
        getConvertMatrix items = .error .throwNotInvertible →
        convertSVGToGeoJSON doc opts = .error .throwNotInvertible) ∧
    (∀ (doc : List El) (opts : Options) (items : List GeoItem) (m : Mat23),
        trangleVertices doc = some items → items.length = 3 →
        getConvertMatrix items = .ok m →
        convertSVGToGeoJSON doc opts = processDocument doc opts m) := by
  refine ⟨?_, ?_, ?_, ?_, ?_⟩
  · intro doc opts h
    simp [convertSVGToGeoJSON, h]
  · intro doc opts items h hl
    simp [convertSVGToGeoJSON, h, hl]
  · intro v0 v1 v2 vs
    by_cases hd : (v1.x - v0.x) * (v2.y - v0.y) - (v2.x - v0.x) * (v1.y - v0.y) = 0
    · simp [getConvertMatrix, fromTriangles, hd]
    · simp [getConvertMatrix, fromTriangles, hd]
  · intro doc opts items h hl herr
    simp [convertSVGToGeoJSON, h, hl, herr]
  · intro doc opts items m h hl hok
    simp [convertSVGToGeoJSON, h, hl, hok]

/-- Witness for C2: an empty document (no metadata) exits; collinear
correspondence items abort calibration; the identity correspondence
items proceed into geometry processing. -/
theorem c2_calibration_gate_witness :
    convertSVGToGeoJSON [] ⟨false, false⟩ = .error .exitNoMeta ∧
      convertSVGToGeoJSON [.metaInfo (some collItems)] ⟨false, false⟩ =
        .error .throwNotInvertible ∧
      convertSVGToGeoJSON c10Doc ⟨false, false⟩ =
        processDocument c10Doc ⟨false, false⟩ ⟨1, 0, 0, 1, 0, 0⟩ := by
  refine ⟨c2_calibration_gate.1 [] ⟨false, false⟩ rfl, ?_, ?_⟩
  · refine c2_calibration_gate.2.2.2.1 _ ⟨false, false⟩ collItems rfl rfl ?_
    norm_num [getConvertMatrix, fromTriangles, collItems]
  · refine c2_calibration_gate.2.2.2.2 _ ⟨false, false⟩ idItems ⟨1, 0, 0, 1, 0, 0⟩ rfl rfl ?_
    norm_num [getConvertMatrix, fromTriangles, idItems]

/-- C4 (code-bug evidence): composing a running transform with a
sibling's local matrix does not produce a fresh instance — the product
is written into the shared parent object.  Processing `c4Child1` under
the parent translation hands the caller back the mutated value
`⟨2,0,0,2,5,5⟩`, different from the parent's original transform; in the
full group, the transform observed by the later sibling `c4Child2` is
therefore the first sibling's composition, placing its line at
(5,5)–(7,7) instead of the (5,5)–(6,6) the parent transform alone gives. -/
theorem c4_sibling_transform_mutated :
    processElem c4Child1 (some c4ParentMat) =
      .ok ([{ shape := .lineString [(5, 5), (7, 7)], debugId := some "line @ 0,0" }],
        some ⟨2, 0, 0, 2, 5, 5⟩) ∧
    some (⟨2, 0, 0, 2, 5, 5⟩ : Mat23) ≠ some c4ParentMat ∧
    processElem c4Parent none =
      .ok ([{ shape := .lineString [(5, 5), (7, 7)], debugId := some "line @ 0,0" },
            { shape := .lineString [(5, 5), (7, 7)], debugId := some "line @ 0,0" }], none) ∧
    coords (some c4ParentMat) [(0, 0), (1, 1)] = [(5, 5), (6, 6)] := by
  refine ⟨?_, ?_, ?_, ?_⟩
  · norm_num [processElem, c4Child1, c4ParentMat, combineTransform, elTransform, addLineGeo,
      coords, Mat23.mul, Mat23.transformMat23, addDebugId, qStr]
    rfl
  · norm_num [c4ParentMat, Mat23.mk.injEq]
  · norm_num [processElem, processList, c4Parent, c4Child1, c4Child2, combineTransform,
      elTransform, addLineGeo, coords, Mat23.mul, Mat23.transformMat23, addDebugId, qStr]
    rfl
  · norm_num [coords, c4ParentMat, Mat23.transformMat23]

/-- C5 (code-bug evidence): the line element's debug label `#foo` is
computed and attached to its coordinates array, but the feature
assembly reads `svgID` from the freshly rebuilt (converted) coordinates
array, so in debug mode every feature carries `svgID: undefined`
(modelled `none`) instead of the label the claim requires; with debug
off, `properties` is null. -/
theorem c5_debug_label_lost :
    processElem (.line (some "foo") none 0 0 1 1) none =
      .ok ([{ shape := .lineString [(0, 0), (1, 1)], debugId := some "#foo" }], none) ∧
    convertSVGToGeoJSON c5Doc ⟨false, true⟩ =
      .ok (.single ⟨[{ properties := some { svgID := none },
                       geometry := { shape := .lineString [(0, 0), (1, 1)],
                                     debugId := none } }]⟩) ∧
    (some { svgID := none } : Option Props) ≠ some { svgID := some "#foo" } ∧
    convertSVGToGeoJSON c5Doc ⟨false, false⟩ =
      .ok (.single ⟨[{ properties := none,
                       geometry := { shape := .lineString [(0, 0), (1, 1)],
                                     debugId := none } }]⟩) := by
  refine ⟨?_, ?_, ?_, ?_⟩
  · norm_num [processElem, combineTransform, elTransform, addLineGeo, coords, addDebugId, qStr]
    rfl
  · norm_num [convertSVGToGeoJSON, c5Doc, trangleVertices, elMetaGeo, List.findSome?,
      getConvertMatrix, fromTriangles, idItems, processDocument, convertLoop, List.enum,
      List.enumFrom, convertStep, ensureLayer, appendLayer, processElem, processList,
      combineTransform, elTransform, addLineGeo, coords, addDebugId, qStr, buildFeatures,
      convertCoordinatesGeo, mapShape, Mat23.applyToPoint]
  · simp [Props.mk.injEq]
  · norm_num [convertSVGToGeoJSON, c5Doc, trangleVertices, elMetaGeo, List.findSome?,
      getConvertMatrix, fromTriangles, idItems, processDocument, convertLoop, List.enum,
      List.enumFrom, convertStep, ensureLayer, appendLayer, processElem, processList,
      combineTransform, elTransform, addLineGeo, coords, addDebugId, qStr, buildFeatures,
      convertCoordinatesGeo, mapShape, Mat23.applyToPoint]

/-- C10: a valid document (three non-collinear correspondence items)
with no geometry-producing elements makes default conversion fail: the
unnamed layer is created but stays empty, every empty layer is dropped
before selection, and `layers[0].geo` on the empty list throws instead
of returning a collection with zero features. -/
theorem c10_empty_layers_failure :
    convertLoop ⟨false, false⟩ c10Doc.enum [] = .ok [("", [])] ∧
      convertSVGToGeoJSON c10Doc ⟨false, false⟩ = .error .typeError := by
  constructor
  · norm_num [c10Doc, convertLoop, List.enum, List.enumFrom, convertStep, ensureLayer,
      appendLayer, processElem, processList, combineTransform, elTransform]
  · norm_num [convertSVGToGeoJSON, c10Doc, trangleVertices, elMetaGeo, List.findSome?,
      getConvertMatrix, fromTriangles, idItems, processDocument, convertLoop, List.enum,
      List.enumFrom, convertStep, ensureLayer, appendLayer, processElem, processList,
      combineTransform, elTransform]
